import Mathlib

/-!
Verification of the layer-execution core (`src/layer.rs`).

The Rust source is shallowly embedded: pure functions become Lean
functions, `Result<(), String>` becomes `Except String Unit`, `Option<f32>`
becomes `Option Float` (no float arithmetic is performed on these values),
and the numeric blob buffers used by the forward pass are modelled over `Rat`
(the concrete inputs used in the theorems are small integers, represented
exactly by `f32`).

External collaborators (the `phloem` blob type and the `math` dot product)
are not part of the repository; they are modelled from the spec where noted.
-/

/-- Modelled from the spec: the external `phloem` Blob type ("a tensor type
exposing read-only data/gradient views, a shape descriptor, an element count").
`check_dimensions` consumes only its shape, element count (`capacity`) and
shape string, so only the shape is carried; the element count is the product
of the dimensions. -/
structure PBlob where
  shape : List Nat
deriving DecidableEq

/-- Modelled from the spec: the blob's total element count (`Blob::capacity`). -/
def PBlob.capacity (b : PBlob) : Nat := b.shape.prod

/-- Modelled from the spec: the blob's human-readable shape descriptor
(`Blob::shape_string`). -/
def PBlob.shape_string (b : PBlob) : String :=
  String.intercalate " " (b.shape.map toString)

/-- `enum DimCheckMode` from `layer.rs`. -/
inductive DimCheckMode where
  /-- Strict requires that shapes match. -/
  | Strict : DimCheckMode
  /-- Permissive requires only the count of weights to match. -/
  | Permissive : DimCheckMode
deriving DecidableEq

/-- `struct ParamConfig` from `layer.rs`.  The Rust field and getter are both
called `lr_mult` (resp. `decay_mult`); Lean cannot give a structure field and
a function the same name, so the getters below carry a `_val` suffix. -/
structure ParamConfig where
  name : String
  share_mode : DimCheckMode
  lr_mult : Option Float
  decay_mult : Option Float

/-- `ParamConfig::default` from `layer.rs`. -/
def ParamConfig.default : ParamConfig :=
  { name := "", share_mode := DimCheckMode.Strict, lr_mult := none, decay_mult := none }

/-- `ParamConfig::check_dimensions` from `layer.rs`: checks dimensions of two
blobs according to the `share_mode`, returning a descriptive error on a
count/shape mismatch.  The error strings mirror the `format!` calls in the
source (modulo whitespace of the multi-line literal). -/
def ParamConfig.check_dimensions (p : ParamConfig) (blob_one blob_two : PBlob)
    (param_name owner_name layer_name : String) : Except String Unit :=
  match p.share_mode with
  | DimCheckMode.Permissive =>
      if blob_one.capacity ≠ blob_two.capacity then
        Except.error ("Cannot share param " ++ param_name ++ " owned by layer "
          ++ owner_name ++ " with layer " ++ layer_name ++ "; count mismatch. "
          ++ "Owner layer param shape is " ++ blob_two.shape_string
          ++ "; Sharing layer param shape is " ++ blob_one.shape_string)
      else Except.ok ()
  | DimCheckMode.Strict =>
      if blob_one.shape ≠ blob_two.shape then
        Except.error ("Cannot share param " ++ param_name ++ " owned by layer "
          ++ owner_name ++ " with layer " ++ layer_name ++ "; shape mismatch. "
          ++ "Owner layer param shape is " ++ blob_two.shape_string
          ++ "; Sharing layer expects param shape " ++ blob_one.shape_string)
      else Except.ok ()

/-- `ParamConfig::lr_mult` (the getter) from `layer.rs`. -/
def ParamConfig.lr_mult_val (p : ParamConfig) : Float :=
  match p.lr_mult with
  | some val => val
  | none => 1.0

/-- `ParamConfig::decay_mult` (the getter) from `layer.rs`. -/
def ParamConfig.decay_mult_val (p : ParamConfig) : Float :=
  match p.decay_mult with
  | some val => val
  | none => 1.0

/-- `enum LayerType` from `layer.rs`. -/
inductive LayerType where
  | Sigmoid : LayerType
deriving DecidableEq

/-- `struct LayerConfig` from `layer.rs`. -/
structure LayerConfig where
  name : String
  layer_type : LayerType
  tops : List String
  bottoms : List String
  params : List ParamConfig
  propagate_down : List Bool

/-- `LayerConfig::new` from `layer.rs`. -/
def LayerConfig.new (name : String) (layer_type : LayerType) : LayerConfig :=
  { name := name, layer_type := layer_type, tops := [], bottoms := [],
    params := [], propagate_down := [] }

/-- `LayerConfig::top` from `layer.rs`. -/
def LayerConfig.top (c : LayerConfig) (top_id : Nat) : Option String :=
  c.tops.get? top_id

/-- `LayerConfig::tops_len` from `layer.rs`. -/
def LayerConfig.tops_len (c : LayerConfig) : Nat := c.tops.length

/-- `LayerConfig::bottom` from `layer.rs`. -/
def LayerConfig.bottom (c : LayerConfig) (bottom_id : Nat) : Option String :=
  c.bottoms.get? bottom_id

/-- `LayerConfig::bottoms_len` from `layer.rs`. -/
def LayerConfig.bottoms_len (c : LayerConfig) : Nat := c.bottoms.length

/-- `LayerConfig::param` from `layer.rs`. -/
def LayerConfig.param (c : LayerConfig) (param_id : Nat) : Option ParamConfig :=
  c.params.get? param_id

/-- `LayerConfig::params_len` from `layer.rs`. -/
def LayerConfig.params_len (c : LayerConfig) : Nat := c.params.length

/-- `LayerConfig::check_propagate_down_len` from `layer.rs`. -/
def LayerConfig.check_propagate_down_len (c : LayerConfig) : Bool :=
  c.propagate_down.isEmpty || c.propagate_down.length == c.bottoms.length

/-- A string occurs inside another one (used to state that an error message
names a parameter, a layer or a shape). -/
def containsStr (hay needle : String) : Prop :=
  ∃ pre post : String, hay = pre ++ needle ++ post

theorem string_append_assoc (a b c : String) : a ++ b ++ c = a ++ (b ++ c) := by
  cases a with
  | mk da =>
    cases b with
    | mk db =>
      cases c with
      | mk dc =>
        show String.mk (da ++ db ++ dc) = String.mk (da ++ (db ++ dc))
        rw [List.append_assoc]

/-- On the error branch of `check_dimensions` (Strict), the message contains
every name and both shape strings: it is literally built from them. -/
theorem strict_error_contains (pn onm ln s2 s1 : String) :
    let msg := "Cannot share param " ++ pn ++ " owned by layer "
      ++ onm ++ " with layer " ++ ln ++ "; shape mismatch. "
      ++ "Owner layer param shape is " ++ s2
      ++ "; Sharing layer expects param shape " ++ s1
    containsStr msg pn ∧ containsStr msg onm ∧ containsStr msg ln
      ∧ containsStr msg s2 ∧ containsStr msg s1 := by
  refine ⟨⟨"Cannot share param ", ?_, ?_⟩, ?_, ?_, ?_, ?_⟩
  · exact " owned by layer " ++ onm ++ " with layer " ++ ln ++ "; shape mismatch. "
      ++ "Owner layer param shape is " ++ s2 ++ "; Sharing layer expects param shape " ++ s1
  · simp only [string_append_assoc]
  · refine ⟨"Cannot share param " ++ pn ++ " owned by layer ",
      " with layer " ++ ln ++ "; shape mismatch. " ++ "Owner layer param shape is " ++ s2
        ++ "; Sharing layer expects param shape " ++ s1, ?_⟩
    simp only [string_append_assoc]
  · refine ⟨"Cannot share param " ++ pn ++ " owned by layer " ++ onm ++ " with layer ",
      "; shape mismatch. " ++ "Owner layer param shape is " ++ s2
        ++ "; Sharing layer expects param shape " ++ s1, ?_⟩
    simp only [string_append_assoc]
  · refine ⟨"Cannot share param " ++ pn ++ " owned by layer " ++ onm ++ " with layer "
        ++ ln ++ "; shape mismatch. " ++ "Owner layer param shape is ",
      "; Sharing layer expects param shape " ++ s1, ?_⟩
    simp only [string_append_assoc]
  · refine ⟨"Cannot share param " ++ pn ++ " owned by layer " ++ onm ++ " with layer "
        ++ ln ++ "; shape mismatch. " ++ "Owner layer param shape is " ++ s2
        ++ "; Sharing layer expects param shape ", "", ?_⟩
    simp only [string_append_assoc, String.append_empty]

/-- On the error branch of `check_dimensions` (Permissive), the message
contains the parameter name and both layer names. -/
theorem permissive_error_contains (pn onm ln s2 s1 : String) :
    let msg := "Cannot share param " ++ pn ++ " owned by layer "
      ++ onm ++ " with layer " ++ ln ++ "; count mismatch. "
      ++ "Owner layer param shape is " ++ s2
      ++ "; Sharing layer param shape is " ++ s1
    containsStr msg pn ∧ containsStr msg onm ∧ containsStr msg ln := by
  refine ⟨⟨"Cannot share param ", ?_, ?_⟩, ?_, ?_⟩
  · exact " owned by layer " ++ onm ++ " with layer " ++ ln ++ "; count mismatch. "
      ++ "Owner layer param shape is " ++ s2 ++ "; Sharing layer param shape is " ++ s1
  · simp only [string_append_assoc]
  · refine ⟨"Cannot share param " ++ pn ++ " owned by layer ",
      " with layer " ++ ln ++ "; count mismatch. " ++ "Owner layer param shape is " ++ s2
        ++ "; Sharing layer param shape is " ++ s1, ?_⟩
    simp only [string_append_assoc]
  · refine ⟨"Cannot share param " ++ pn ++ " owned by layer " ++ onm ++ " with layer ",
      "; count mismatch. " ++ "Owner layer param shape is " ++ s2
        ++ "; Sharing layer param shape is " ++ s1, ?_⟩
    simp only [string_append_assoc]

/-- C4: for every `ParamConfig` in `Strict` share mode, `check_dimensions`
succeeds iff the two blobs' shapes are element-wise equal; on mismatch the
error message contains the parameter name, both layer names and both shape
strings. -/
theorem C4_check_dimensions_strict (p : ParamConfig) (blob_one blob_two : PBlob)
    (param_name owner_name layer_name : String)
    (hmode : p.share_mode = DimCheckMode.Strict) :
    (p.check_dimensions blob_one blob_two param_name owner_name layer_name = Except.ok ()
      ↔ blob_one.shape = blob_two.shape)
    ∧ (blob_one.shape ≠ blob_two.shape →
        ∃ msg, p.check_dimensions blob_one blob_two param_name owner_name layer_name
            = Except.error msg
          ∧ containsStr msg param_name ∧ containsStr msg owner_name
          ∧ containsStr msg layer_name
          ∧ containsStr msg blob_two.shape_string
          ∧ containsStr msg blob_one.shape_string) := by
  unfold ParamConfig.check_dimensions
  rw [hmode]
  by_cases hsh : blob_one.shape = blob_two.shape
  · simp [hsh]
  · refine ⟨by simp [hsh], fun _ =>
      ⟨"Cannot share param " ++ param_name ++ " owned by layer "
        ++ owner_name ++ " with layer " ++ layer_name ++ "; shape mismatch. "
        ++ "Owner layer param shape is " ++ blob_two.shape_string
        ++ "; Sharing layer expects param shape " ++ blob_one.shape_string,
       by simp [hsh], ?_⟩⟩
    exact strict_error_contains param_name owner_name layer_name
      blob_two.shape_string blob_one.shape_string

/-- C4 witness: a concrete `Strict` config and two blobs with unequal shapes. -/
theorem C4_check_dimensions_strict_witness :
    (ParamConfig.default.check_dimensions ⟨[2, 3]⟩ ⟨[3, 2]⟩ "w" "own" "shr" = Except.ok ()
      ↔ PBlob.shape ⟨[2, 3]⟩ = PBlob.shape ⟨[3, 2]⟩)
    ∧ (PBlob.shape ⟨[2, 3]⟩ ≠ PBlob.shape ⟨[3, 2]⟩ →
        ∃ msg, ParamConfig.default.check_dimensions ⟨[2, 3]⟩ ⟨[3, 2]⟩ "w" "own" "shr"
            = Except.error msg
          ∧ containsStr msg "w" ∧ containsStr msg "own" ∧ containsStr msg "shr"
          ∧ containsStr msg (PBlob.shape_string ⟨[3, 2]⟩)
          ∧ containsStr msg (PBlob.shape_string ⟨[2, 3]⟩)) :=
  C4_check_dimensions_strict ParamConfig.default ⟨[2, 3]⟩ ⟨[3, 2]⟩ "w" "own" "shr" rfl

/-- C5: for every `ParamConfig` in `Permissive` share mode, `check_dimensions`
succeeds iff the two blobs' total element counts are equal (their shapes may
differ); on mismatch the error message names the parameter and both layers. -/
theorem C5_check_dimensions_permissive (p : ParamConfig) (blob_one blob_two : PBlob)
    (param_name owner_name layer_name : String)
    (hmode : p.share_mode = DimCheckMode.Permissive) :
    (p.check_dimensions blob_one blob_two param_name owner_name layer_name = Except.ok ()
      ↔ blob_one.capacity = blob_two.capacity)
    ∧ (blob_one.capacity ≠ blob_two.capacity →
        ∃ msg, p.check_dimensions blob_one blob_two param_name owner_name layer_name
            = Except.error msg
          ∧ containsStr msg param_name ∧ containsStr msg owner_name
          ∧ containsStr msg layer_name) := by
  unfold ParamConfig.check_dimensions
  rw [hmode]
  by_cases hcap : blob_one.capacity = blob_two.capacity
  · simp [hcap]
  · refine ⟨by simp [hcap], fun _ =>
      ⟨"Cannot share param " ++ param_name ++ " owned by layer "
        ++ owner_name ++ " with layer " ++ layer_name ++ "; count mismatch. "
        ++ "Owner layer param shape is " ++ blob_two.shape_string
        ++ "; Sharing layer param shape is " ++ blob_one.shape_string,
       by simp [hcap], ?_⟩⟩
    exact permissive_error_contains param_name owner_name layer_name
      blob_two.shape_string blob_one.shape_string

/-- C5 witness: a `Permissive` config succeeds on equal counts with different
shapes, and the mismatch branch is exercised at a concrete input. -/
theorem C5_check_dimensions_permissive_witness :
    ({ ParamConfig.default with
        share_mode := DimCheckMode.Permissive }.check_dimensions ⟨[2, 3]⟩ ⟨[4]⟩ "w" "own" "shr"
      = Except.ok () ↔ PBlob.capacity ⟨[2, 3]⟩ = PBlob.capacity ⟨[4]⟩)
    ∧ (PBlob.capacity ⟨[2, 3]⟩ ≠ PBlob.capacity ⟨[4]⟩ →
        ∃ msg, { ParamConfig.default with
            share_mode := DimCheckMode.Permissive }.check_dimensions ⟨[2, 3]⟩ ⟨[4]⟩ "w" "own" "shr"
            = Except.error msg
          ∧ containsStr msg "w" ∧ containsStr msg "own" ∧ containsStr msg "shr") :=
  C5_check_dimensions_permissive
    { ParamConfig.default with share_mode := DimCheckMode.Permissive }
    ⟨[2, 3]⟩ ⟨[4]⟩ "w" "own" "shr" rfl

/-- A layer config with three declared bottoms and a given propagate-down
mask, used to instantiate the concrete cases named by the spec. -/
def threeBottomConfig (mask : List Bool) : LayerConfig :=
  { LayerConfig.new "layer" LayerType.Sigmoid with
      bottoms := ["b0", "b1", "b2"], propagate_down := mask }

/-- C8: `check_propagate_down_len` returns true iff `propagate_down` is empty
or its length equals the number of declared bottoms; with 3 declared bottoms a
2-element mask yields false, a 3-element mask yields true, and an empty mask
yields true. -/
theorem C8_check_propagate_down_len (c : LayerConfig) :
    (c.check_propagate_down_len = true
      ↔ (c.propagate_down = [] ∨ c.propagate_down.length = c.bottoms.length))
    ∧ (threeBottomConfig [true, false]).check_propagate_down_len = false
    ∧ (threeBottomConfig [true, false, true]).check_propagate_down_len = true
    ∧ (threeBottomConfig []).check_propagate_down_len = true := by
  refine ⟨?_, by decide, by decide, by decide⟩
  unfold LayerConfig.check_propagate_down_len
  simp [List.isEmpty_iff]

/-- C9: `lr_mult` and `decay_mult` getters return exactly `1.0` when the
corresponding optional field is unset, and the configured value otherwise. -/
theorem C9_lr_decay_mult_defaults (p : ParamConfig) :
    (p.lr_mult = none → p.lr_mult_val = 1.0)
    ∧ (∀ v, p.lr_mult = some v → p.lr_mult_val = v)
    ∧ (p.decay_mult = none → p.decay_mult_val = 1.0)
    ∧ (∀ v, p.decay_mult = some v → p.decay_mult_val = v) := by
  refine ⟨fun h => ?_, fun v h => ?_, fun h => ?_, fun v h => ?_⟩
  · unfold ParamConfig.lr_mult_val; rw [h]
  · unfold ParamConfig.lr_mult_val; rw [h]
  · unfold ParamConfig.decay_mult_val; rw [h]
  · unfold ParamConfig.decay_mult_val; rw [h]

/-- C9 witness: the default config (both fields unset) yields `1.0`, and a
configured value `2.5` is returned unchanged. -/
theorem C9_lr_decay_mult_defaults_witness :
    ParamConfig.default.lr_mult_val = 1.0
    ∧ ParamConfig.default.decay_mult_val = 1.0
    ∧ ({ ParamConfig.default with lr_mult := some 2.5 }).lr_mult_val = 2.5
    ∧ ({ ParamConfig.default with decay_mult := some 0.5 }).decay_mult_val = 0.5 :=
  ⟨(C9_lr_decay_mult_defaults ParamConfig.default).1 rfl,
   (C9_lr_decay_mult_defaults ParamConfig.default).2.2.1 rfl,
   (C9_lr_decay_mult_defaults { ParamConfig.default with lr_mult := some 2.5 }).2.1 2.5 rfl,
   (C9_lr_decay_mult_defaults
     { ParamConfig.default with decay_mult := some 0.5 }).2.2.2 0.5 rfl⟩

/-- `struct Layer` from `layer.rs`.  The `worker: Box<ILayer>` trait object is
represented by the `layer_type` it was selected from (`worker_from_config`
maps `LayerType::Sigmoid` to the `Sigmoid` worker and nothing else); the
worker's behaviour itself is modelled separately for the `forward` contract.
`blobs: Vec<ArcLock<HeapBlob>>` holds opaque shared handles, modelled as
numeric identifiers.  The Rust field and getter are both called `loss`; the
getter is embedded below as `Layer.lossAt`. -/
structure Layer where
  config : LayerConfig
  worker : LayerType
  loss : List Float
  blobs : List Nat
  param_propagate_down : List Bool

/-- `Layer::worker_from_config` from `layer.rs`. -/
def Layer.worker_from_config (config : LayerConfig) : LayerType :=
  match config.layer_type with
  | LayerType.Sigmoid => LayerType.Sigmoid

/-- `Layer::from_config` from `layer.rs`: `loss`, `blobs` and
`param_propagate_down` all start out as empty vectors. -/
def Layer.from_config (config : LayerConfig) : Layer :=
  { loss := [], blobs := [], param_propagate_down := [],
    worker := Layer.worker_from_config config, config := config }

/-- `Layer::set_param_propagate_down` from `layer.rs`: when the vector is too
short it is resized to `param_id + 1`, the new slots filled with `true`
(Rust `Vec::resize(param_id + 1, true)`), and then slot `param_id` is set. -/
def Layer.set_param_propagate_down (l : Layer) (param_id : Nat) (value : Bool) : Layer :=
  let grown :=
    if l.param_propagate_down.length ≤ param_id then
      l.param_propagate_down
        ++ List.replicate (param_id + 1 - l.param_propagate_down.length) true
    else l.param_propagate_down
  { l with param_propagate_down := grown.set param_id value }

/-- `Layer::loss` (the getter) from `layer.rs`: `self.loss.get(id)`. -/
def Layer.lossAt (l : Layer) (id : Nat) : Option Float :=
  l.loss.get? id

/-- C6 counterexample: a config declaring one top.  The claim says
`loss(id)` returns `Some` for every `id` below the declared top count, but the
freshly constructed layer's `loss` vector is empty, so `loss(0)` is `None`
even though `0 < tops_len`. -/
theorem C6_counterexample :
    ({ LayerConfig.new "l" LayerType.Sigmoid with tops := ["t0"] } : LayerConfig).tops_len = 1
    ∧ (Layer.from_config
        { LayerConfig.new "l" LayerType.Sigmoid with tops := ["t0"] }).lossAt 0 = none := by
  exact ⟨rfl, rfl⟩

/-- C6 (amended): `Layer::loss(id)` is `self.loss.get(id)`: it returns `None`
iff `id` is at least the length of the internal `loss` vector, independently
of the declared top count; since `from_config` leaves that vector empty, a
freshly constructed layer returns `None` for every `id`. -/
theorem C6_lossAt_amended (l : Layer) (id : Nat) (cfg : LayerConfig) :
    (l.lossAt id = none ↔ l.loss.length ≤ id)
    ∧ (Layer.from_config cfg).lossAt id = none := by
  constructor
  · unfold Layer.lossAt
    simp [List.get?_eq_none]
  · unfold Layer.lossAt Layer.from_config
    simp

/-- Setting the position just past `xs` in `xs ++ [a]` replaces `a`. -/
theorem set_append_singleton {α : Type} (xs : List α) (a v : α) :
    (xs ++ [a]).set xs.length v = xs ++ [v] := by
  induction xs with
  | nil => rfl
  | cons x xs ih =>
      show x :: ((xs ++ [a]).set xs.length v) = x :: (xs ++ [v])
      rw [ih]

/-- The grow-then-set step of `set_param_propagate_down`: resizing to
`id + 1` with fill `true` and then writing slot `id` appends `id - length`
fresh `true` slots followed by `v`. -/
theorem grow_then_set (ppd : List Bool) (id : Nat) (v : Bool)
    (h : ppd.length ≤ id) :
    (ppd ++ List.replicate (id + 1 - ppd.length) true).set id v
      = ppd ++ (List.replicate (id - ppd.length) true).concat v := by
  have hk : id + 1 - ppd.length = (id - ppd.length) + 1 := by omega
  rw [hk, List.replicate_succ', ← List.append_assoc]
  have hl : (ppd ++ List.replicate (id - ppd.length) true).length = id := by
    rw [List.length_append, List.length_replicate]; omega
  calc ((ppd ++ List.replicate (id - ppd.length) true) ++ [true]).set id v
      = ((ppd ++ List.replicate (id - ppd.length) true) ++ [true]).set
          (ppd ++ List.replicate (id - ppd.length) true).length v := by rw [hl]
    _ = (ppd ++ List.replicate (id - ppd.length) true) ++ [v] :=
        set_append_singleton _ _ _
    _ = ppd ++ (List.replicate (id - ppd.length) true).concat v := by
        rw [List.concat_eq_append, List.append_assoc]

/-- When the index is already in range, `set_param_propagate_down` only
overwrites the slot (the Rust `resize` branch is not taken). -/
theorem spd_of_lt (l : Layer) (id : Nat) (v : Bool)
    (h : id < l.param_propagate_down.length) :
    l.set_param_propagate_down id v
      = { l with param_propagate_down := l.param_propagate_down.set id v } := by
  unfold Layer.set_param_propagate_down
  have hno : ¬ l.param_propagate_down.length ≤ id := by omega
  simp [hno]

/-- After `set_param_propagate_down id v`, index `id` is in range. -/
theorem spd_len_gt (l : Layer) (id : Nat) (v : Bool) :
    id < (l.set_param_propagate_down id v).param_propagate_down.length := by
  unfold Layer.set_param_propagate_down
  by_cases h : l.param_propagate_down.length ≤ id
  · simp only [h, if_true, List.length_set, List.length_append, List.length_replicate]
    omega
  · simp only [h, if_false, List.length_set]
    omega

/-- C7: `set_param_propagate_down id v` run twice is the same as run once;
and when `id` is beyond the current length, the vector grows to `id + 1`, the
newly created slots other than `id` are `true`, and slot `id` holds `v`. -/
theorem C7_set_param_propagate_down (l : Layer) (id : Nat) (v : Bool) :
    ((l.set_param_propagate_down id v).set_param_propagate_down id v
      = l.set_param_propagate_down id v)
    ∧ (l.param_propagate_down.length ≤ id →
        (l.set_param_propagate_down id v).param_propagate_down
          = l.param_propagate_down
            ++ (List.replicate (id - l.param_propagate_down.length) true).concat v) := by
  constructor
  · rw [spd_of_lt _ _ _ (spd_len_gt l id v)]
    have hppd : (l.set_param_propagate_down id v).param_propagate_down.set id v
        = (l.set_param_propagate_down id v).param_propagate_down := by
      unfold Layer.set_param_propagate_down
      simp [List.set_set]
    rw [hppd]
  · intro h
    unfold Layer.set_param_propagate_down
    simp only [h, if_true]
    exact grow_then_set l.param_propagate_down id v h

/-- A concrete layer whose propagate-down vector holds a single `false`. -/
def layerW : Layer :=
  { Layer.from_config (LayerConfig.new "l" LayerType.Sigmoid) with
      param_propagate_down := [false] }

/-- C7 witness: growing `[false]` by writing index 3 with `false` is
idempotent and yields `[false, true, true, false]`. -/
theorem C7_set_param_propagate_down_witness :
    ((layerW.set_param_propagate_down 3 false).set_param_propagate_down 3 false
      = layerW.set_param_propagate_down 3 false)
    ∧ (layerW.set_param_propagate_down 3 false).param_propagate_down
        = [false] ++ (List.replicate 2 true).concat false :=
  ⟨(C7_set_param_propagate_down layerW 3 false).1,
   (C7_set_param_propagate_down layerW 3 false).2 (by decide)⟩

/-- The state-mutating operations reachable through `Layer`'s public API:
`set_param_propagate_down` is the only mutator (`loss` is a pure query). -/
inductive LayerOp where
  | setParamPropagateDown (param_id : Nat) (value : Bool) : LayerOp

/-- Run one public mutating operation. -/
def Layer.applyOp (l : Layer) : LayerOp → Layer
  | LayerOp.setParamPropagateDown id v => l.set_param_propagate_down id v

/-- Run a sequence of public mutating operations. -/
def Layer.runOps (l : Layer) (ops : List LayerOp) : Layer :=
  ops.foldl Layer.applyOp l

/-- C10: `from_config` initialises the internal `loss` vector empty, no
public operation grows it, so in every reachable state `loss(id)` is `None`
for every `id`. -/
theorem C10_loss_stays_empty (cfg : LayerConfig) (ops : List LayerOp) (id : Nat) :
    ((Layer.from_config cfg).runOps ops).loss = []
    ∧ ((Layer.from_config cfg).runOps ops).lossAt id = none := by
  have hpres : ∀ (l : Layer) (op : LayerOp), (l.applyOp op).loss = l.loss := by
    intro l op
    cases op
    rfl
  have hmain : ∀ (ops : List LayerOp) (l : Layer), (l.runOps ops).loss = l.loss := by
    intro ops
    induction ops with
    | nil => intro l; rfl
    | cons op rest ih =>
        intro l
        show ((l.applyOp op).runOps rest).loss = l.loss
        rw [ih, hpres]
  refine ⟨hmain ops _, ?_⟩
  unfold Layer.lossAt
  rw [hmain ops _]
  rfl

/-- Modelled from the spec: `phloem::HeapBlob` — a numeric data buffer and an
equal-shaped gradient (`diff`) buffer, exposed read-only as `cpu_data` /
`cpu_diff`.  The `f32` entries are modelled over `ℚ`; the concrete inputs
used below are small integers, represented exactly by `f32`. -/
structure HeapBlob where
  cpu_data : List ℚ
  cpu_diff : List ℚ
deriving DecidableEq

/-- Modelled from the spec: `math::leaf_cpu_dot`, the scalar dot product of
two equal-length numeric sequences. -/
def leaf_cpu_dot (x y : List ℚ) : ℚ :=
  ((x.zip y).map (fun p => p.1 * p.2)).sum

/-- An `ArcLock<HeapBlob>` as `forward` observes it: the shared handle either
is poisoned (a previous writer panicked mid-mutation) or yields the blob. -/
structure ArcLockBlob where
  poisoned : Bool
  blob : HeapBlob
deriving DecidableEq

/-- `RwLock::read` on the handle: `Err` on a poisoned lock.  `forward` calls
`.unwrap()` on this result, which panics on `Err`; the panic is modelled as
`Except.error`, a distinguishable outcome carrying no blob data. -/
def rwlock_read (a : ArcLockBlob) : Except Unit HeapBlob :=
  if a.poisoned then Except.error () else Except.ok a.blob

/-- `RwLock::write` on the handle: `Err` on a poisoned lock, like
`rwlock_read`. -/
def rwlock_write (a : ArcLockBlob) : Except Unit HeapBlob :=
  if a.poisoned then Except.error () else Except.ok a.blob

/-- `bottom.iter().map(|b| b.read().unwrap()).collect()` (line 88): the first
poisoned lock panics, otherwise all blobs are collected. -/
def readAll : List ArcLockBlob → Except Unit (List HeapBlob)
  | [] => Except.ok []
  | a :: rest =>
      match rwlock_read a with
      | Except.error e => Except.error e
      | Except.ok b =>
          match readAll rest with
          | Except.error e => Except.error e
          | Except.ok bs => Except.ok (b :: bs)

/-- `tp_ref.iter().map(|b| b.write().unwrap()).collect()` (line 91). -/
def writeAll : List ArcLockBlob → Except Unit (List HeapBlob)
  | [] => Except.ok []
  | a :: rest =>
      match rwlock_write a with
      | Except.error e => Except.error e
      | Except.ok b =>
          match writeAll rest with
          | Except.error e => Except.error e
          | Except.ok bs => Except.ok (b :: bs)

/-- The loss loop of `forward` (lines 96-106): for every top (no filter — the
`if !self.loss(top_id)` guard from Caffe is commented out in the source), re-
read the blob and accumulate `loss += leaf_cpu_dot(data, diff)`. -/
def lossLoop : ℚ → List ArcLockBlob → Except Unit ℚ
  | acc, [] => Except.ok acc
  | acc, t :: rest =>
      match rwlock_read t with
      | Except.error e => Except.error e
      | Except.ok top_blob =>
          lossLoop (acc + leaf_cpu_dot top_blob.cpu_data top_blob.cpu_diff) rest

/-- The observable outcome of one real `ILayer::forward` invocation: a panic
(an `.unwrap()` on a poisoned lock), a deadlock (a lock acquisition this
invocation can never be granted), or normal completion with the returned
loss and the final top handles. -/
inductive ForwardOutcome where
  | panicked : ForwardOutcome
  | deadlocked : ForwardOutcome
  | completed : ℚ → List ArcLockBlob → ForwardOutcome
deriving DecidableEq

/-- `ILayer::forward` from `layer.rs`, execution semantics including the
guard lifetimes (bottom and top handles taken as distinct; handle aliasing
is covered by `forwardLockTrace` below).  Line 88 read-locks every bottom
and line 91 write-locks every top, `.unwrap()` panicking at the first
poisoned lock.  The collected write guards of line 91 are a lifetime-
extended temporary (`let mut tp = &mut ...collect::<Vec<_>>()`), dropped
only at function exit, so they are still held when the loss loop
(lines 96-106) calls `top_layer.read()` on those same handles —
`std::sync::RwLock` never grants that read, so with at least one top the
invocation deadlocks and never returns.  Only with zero tops does the loop
body never run and the initial loss `0f32` get returned. -/
def forwardExec (forward_cpu : List HeapBlob → List HeapBlob → List HeapBlob)
    (bottom top : List ArcLockBlob) : ForwardOutcome :=
  match readAll bottom with
  | Except.error _ => ForwardOutcome.panicked
  | Except.ok btm =>
      match writeAll top with
      | Except.error _ => ForwardOutcome.panicked
      | Except.ok tp =>
          let topAfter := (top.zip (forward_cpu btm tp)).map
            (fun p => { p.1 with blob := p.2 })
          match top with
          | [] => ForwardOutcome.completed 0 topAfter
          | _ :: _ => ForwardOutcome.deadlocked

/-- `ILayer::forward` from `layer.rs`, data-flow semantics of the error
paths: read-lock all bottoms, write-lock all tops, run the worker's
`forward_cpu` (modelled as a function from the bottom blobs and current top
blobs to the new top blobs, written through the top handles), then run the
loss loop over every top.  `.unwrap()` on a poisoned lock is the
`Except.error` outcome; those panics are decided at lines 88/91, before any
lock conflict can arise, so the error paths of this definition are faithful
and are all the lock-poisoning theorem below relies on.  The `Except.ok`
path is counterfactual for a nonempty `top`: the real invocation still
holds every line-91 write guard during the loss loop and never completes
(see `forwardExec` above and `forwardLockTrace` below); no theorem relies
on that path. -/
def ILayer.forward (forward_cpu : List HeapBlob → List HeapBlob → List HeapBlob)
    (bottom top : List ArcLockBlob) : Except Unit (ℚ × List ArcLockBlob) :=
  match readAll bottom with
  | Except.error e => Except.error e
  | Except.ok btm =>
      match writeAll top with
      | Except.error e => Except.error e
      | Except.ok tp =>
          let topAfter := (top.zip (forward_cpu btm tp)).map
            (fun p => { p.1 with blob := p.2 })
          match lossLoop 0 topAfter with
          | Except.error e => Except.error e
          | Except.ok loss => Except.ok (loss, topAfter)

/-- With no poisoned handle, collecting the read guards yields every blob. -/
theorem readAll_ok (l : List ArcLockBlob) (h : ∀ a ∈ l, a.poisoned = false) :
    readAll l = Except.ok (l.map ArcLockBlob.blob) := by
  induction l with
  | nil => rfl
  | cons a rest ih =>
      have ha : a.poisoned = false := h a (by simp)
      have hrest : ∀ b ∈ rest, b.poisoned = false := fun b hb => h b (by simp [hb])
      unfold readAll rwlock_read
      rw [ha, ih hrest]
      simp

/-- A poisoned handle anywhere in the list makes the collect panic. -/
theorem readAll_err (l : List ArcLockBlob) (h : ∃ a ∈ l, a.poisoned = true) :
    readAll l = Except.error () := by
  induction l with
  | nil => simp at h
  | cons a rest ih =>
      unfold readAll rwlock_read
      by_cases ha : a.poisoned = true
      · rw [ha]
        simp
      · have ha0 : a.poisoned = false := by
          cases hb : a.poisoned
          · rfl
          · exact absurd hb ha
        rw [ha0]
        have hrest : ∃ b ∈ rest, b.poisoned = true := by
          rcases h with ⟨b, hb, hp⟩
          rcases List.mem_cons.mp hb with hba | hbr
          · exact absurd (hba ▸ hp) ha
          · exact ⟨b, hbr, hp⟩
        rw [ih hrest]
        simp

/-- A poisoned handle anywhere in the list makes the write collect panic. -/
theorem writeAll_err (l : List ArcLockBlob) (h : ∃ a ∈ l, a.poisoned = true) :
    writeAll l = Except.error () := by
  induction l with
  | nil => simp at h
  | cons a rest ih =>
      unfold writeAll rwlock_write
      by_cases ha : a.poisoned = true
      · rw [ha]
        simp
      · have ha0 : a.poisoned = false := by
          cases hb : a.poisoned
          · rfl
          · exact absurd hb ha
        rw [ha0]
        have hrest : ∃ b ∈ rest, b.poisoned = true := by
          rcases h with ⟨b, hb, hp⟩
          rcases List.mem_cons.mp hb with hba | hbr
          · exact absurd (hba ▸ hp) ha
          · exact ⟨b, hbr, hp⟩
        rw [ih hrest]
        simp

/-- The loss exactly as claim C1 states it (written from the spec's words,
for comparison with the embedded loss loop): the sum of
`dot(data, diff)` over exactly those tops whose loss weight `loss[top_id]`
is defined and non-zero; a top whose weight is unset or zero contributes 0. -/
def claimC1Loss (lossWeights : List ℚ) (tops : List HeapBlob) : ℚ :=
  ((List.range tops.length).map (fun top_id =>
    match lossWeights.get? top_id, tops.get? top_id with
    | some w, some t => if w ≠ 0 then leaf_cpu_dot t.cpu_data t.cpu_diff else 0
    | _, _ => 0)).sum

/-- An unpoisoned shared handle whose blob has `data = [1]`, `diff = [1]`. -/
def blobOne : ArcLockBlob :=
  { poisoned := false, blob := { cpu_data := [1], cpu_diff := [1] } }

/-- C1 (code bug): at one unpoisoned top with `data = diff = [1]`, an unset
loss weight (the layer's `loss` vector is empty, as `from_config` leaves it)
and a worker that writes nothing new, the claim promises a returned loss of
exactly 0.  The code never returns a loss at all: the loss loop re-reads a
top whose write guard the same invocation still holds, so the invocation
deadlocks.  And the accumulation that loop performs (lines 96-106, here
evaluated in isolation, as it would run under the spec's release-then-
reacquire intent) carries no loss-weight filter — the Caffe guard
`if !self.loss(top_id) ... continue` is commented out at lines 97-98 — so
it accumulates `dot([1],[1]) = 1` where the claim demands 0. -/
theorem C1_forward_never_returns_claimed_loss :
    forwardExec (fun _ tp => tp) [] [blobOne] = ForwardOutcome.deadlocked
    ∧ lossLoop 0 [blobOne] = Except.ok 1
    ∧ claimC1Loss [] [blobOne.blob] = 0
    ∧ (1 : ℚ) ≠ 0 := by
  refine ⟨rfl, ?_, ?_, by norm_num⟩
  · norm_num [lossLoop, rwlock_read, blobOne, leaf_cpu_dot]
  · norm_num [claimC1Loss, List.range_succ]

/-- C3: if any bottom or top handle is poisoned, `forward` ends in the
distinguishable panic outcome: no loss value is produced and the blob data is
not used.  (In the source every lock acquisition is `.unwrap()`ed, so lock
poisoning panics rather than being discarded.) -/
theorem C3_forward_poisoned_is_error
    (forward_cpu : List HeapBlob → List HeapBlob → List HeapBlob)
    (bottom top : List ArcLockBlob)
    (h : (∃ a ∈ bottom, a.poisoned = true) ∨ (∃ a ∈ top, a.poisoned = true)) :
    ILayer.forward forward_cpu bottom top = Except.error () := by
  unfold ILayer.forward
  rcases h with hbot | htop
  · rw [readAll_err bottom hbot]
  · by_cases hball : ∃ a ∈ bottom, a.poisoned = true
    · rw [readAll_err bottom hball]
    · have hb : ∀ a ∈ bottom, a.poisoned = false := by
        intro a ha
        cases hp : a.poisoned
        · rfl
        · exact absurd ⟨a, ha, hp⟩ hball
      rw [readAll_ok bottom hb, writeAll_err top htop]

/-- A poisoned shared handle. -/
def poisonedBlob : ArcLockBlob :=
  { poisoned := true, blob := { cpu_data := [1], cpu_diff := [1] } }

/-- C3 witness: a poisoned bottom handle makes the concrete invocation end in
the panic outcome. -/
theorem C3_forward_poisoned_is_error_witness :
    ILayer.forward (fun _ tp => tp) [poisonedBlob] [blobOne] = Except.error () :=
  C3_forward_poisoned_is_error (fun _ tp => tp) [poisonedBlob] [blobOne]
    (Or.inl ⟨poisonedBlob, by simp, rfl⟩)

/-- A lock operation on a shared blob handle, identified by a numeric id. -/
inductive LockEvent where
  | acqRead (blob_id : Nat) : LockEvent
  | acqWrite (blob_id : Nat) : LockEvent
  | relRead (blob_id : Nat) : LockEvent
  | relWrite (blob_id : Nat) : LockEvent
deriving DecidableEq

/-- The sequence of lock operations one `ILayer::forward` invocation performs
on its bottom and top handles, derived from the source by Rust scoping rules:

* line 88: `btm` collects a read guard per bottom; `btm` is a local variable,
  so those guards drop only at function exit.
* line 91: `tp` collects a write guard per top.  `tp` binds a *reference* to
  the collected `Vec` of guards (`let mut tp = &mut ...collect()`), so the
  vector is a lifetime-extended temporary that also drops only at function
  exit — the write locks stay held through everything below.
* lines 96-106 (the loss loop): each iteration calls `top_layer.read()` on a
  top handle and drops that read guard at the end of the iteration.
* function exit: locals drop in reverse declaration order — the write-guard
  vector first, then `btm`'s read guards (elements of a `Vec` drop front to
  back).

No event is emitted for `tp_ref` (line 90): cloning an `Arc` takes no lock. -/
def forwardLockTrace (bottomIds topIds : List Nat) : List LockEvent :=
  (bottomIds.map LockEvent.acqRead)
  ++ (topIds.map LockEvent.acqWrite)
  ++ (topIds.map (fun i => [LockEvent.acqRead i, LockEvent.relRead i])).flatten
  ++ (topIds.map LockEvent.relWrite)
  ++ (bottomIds.map LockEvent.relRead)

/-- Scans a lock trace with the multiset of currently held blob ids,
returning `true` iff some acquisition targets a blob the invocation already
holds a lock on. -/
def scanDoubleLock (held : List Nat) : List LockEvent → Bool
  | [] => false
  | LockEvent.acqRead b :: rest =>
      held.contains b || scanDoubleLock (b :: held) rest
  | LockEvent.acqWrite b :: rest =>
      held.contains b || scanDoubleLock (b :: held) rest
  | LockEvent.relRead b :: rest => scanDoubleLock (held.erase b) rest
  | LockEvent.relWrite b :: rest => scanDoubleLock (held.erase b) rest

/-- Whether a trace ever acquires a lock on a blob while already holding a
lock on that same blob. -/
def acquiresWhileHeld (tr : List LockEvent) : Bool := scanDoubleLock [] tr

/-- C2 (code bug): the claim — `forward` never holds a lock on a blob while
attempting to acquire a second lock on it, all top write locks being released
before the loss loop re-reads — is what the spec intends, but the code
violates it.  With a single top handle (id 0) the trace write-locks it and
then read-locks it in the loss loop while the write guard is still alive
(self-deadlock on `std::sync::RwLock`); the universally quantified claim is
false. -/
theorem C2_forward_double_locks_top :
    forwardLockTrace [] [0]
      = [LockEvent.acqWrite 0, LockEvent.acqRead 0, LockEvent.relRead 0,
         LockEvent.relWrite 0]
    ∧ acquiresWhileHeld (forwardLockTrace [] [0]) = true
    ∧ acquiresWhileHeld (forwardLockTrace [1] [0]) = true
    ∧ ¬ (∀ bottomIds topIds : List Nat,
          acquiresWhileHeld (forwardLockTrace bottomIds topIds) = false) := by
  refine ⟨by decide, by decide, by decide, fun hall => ?_⟩
  have h0 := hall [] [0]
  rw [show acquiresWhileHeld (forwardLockTrace [] [0]) = true from by decide] at h0
  exact absurd h0 (by decide)
